import Mathlib

/-!
Verification of the time-tracker TUI library (src/src/lib.rs) against its
natural-language specification.

The Rust source is shallowly embedded: machine integers are modelled as
Nat/Int (Rust i64 and usize as-casts are made explicit where they matter),
fallible operations (including panics from unwrap and from arithmetic
underflow) return Option or Except, and the SQLite-backed store is modelled
as in-memory tables with a per-table rowid counter, including the rusqlite
parameter-count check performed when a statement is executed.
-/

namespace TimeTracker

/-! ## Pages and the page-stack state machine (App, lib.rs) -/

/-- The seven page identifiers, from the Pages enum in the source. -/
inductive Pages where
  | Time
  | Projects
  | Settings
  | ProjectDetail
  | TimeEntryCreateOrEdit
  | ProjectCreateOrEdit
  | TaskCreateOrEdit
deriving DecidableEq, Repr

/-- Navigation-relevant fields of the App struct: the page stack and the
quit flag.  The stack is modelled head-first: the list head is the top of
the stack (the source uses a Vec with push and pop at the end). -/
structure AppNav where
  page_stack : List Pages
  quit : Bool
deriving DecidableEq, Repr

/-- The initial navigation state built by App::new: stack = [Time],
quit = false. -/
def AppNav.initial : AppNav :=
  { page_stack := [Pages.Time], quit := false }

/-- Push a page onto the stack (page_stack.push in the source). -/
def AppNav.push (s : AppNav) (p : Pages) : AppNav :=
  { s with page_stack := p :: s.page_stack }

/-- Pop the top page off the stack (page_stack.pop in the source). -/
def AppNav.pop (s : AppNav) : AppNav :=
  { s with page_stack := s.page_stack.tail }

/-- Stack effect of App::handle_time_page_event.  The source first checks
that the top of the stack is the Time page, then matches on the key:
c and e push TimeEntryCreateOrEdit, d deletes the selected time entry and
stays, p pushes Projects, s pushes Settings, q sets the quit flag, and
every other key is ignored. -/
def handle_time_page_event (s : AppNav) (key : Char) : AppNav :=
  if s.page_stack.head? = some Pages.Time then
    if key = 'c' then s.push Pages.TimeEntryCreateOrEdit
    else if key = 'e' then s.push Pages.TimeEntryCreateOrEdit
    else if key = 'd' then s
    else if key = 'p' then s.push Pages.Projects
    else if key = 's' then s.push Pages.Settings
    else if key = 'q' then { s with quit := true }
    else s
  else s

/-- Stack effect of App::handle_project_page_event: c and e push
ProjectCreateOrEdit, d deletes the selected project and stays, t pushes
ProjectDetail, b pops, s pushes Settings, q sets the quit flag. -/
def handle_project_page_event (s : AppNav) (key : Char) : AppNav :=
  if s.page_stack.head? = some Pages.Projects then
    if key = 'c' then s.push Pages.ProjectCreateOrEdit
    else if key = 'e' then s.push Pages.ProjectCreateOrEdit
    else if key = 'd' then s
    else if key = 't' then s.push Pages.ProjectDetail
    else if key = 'b' then s.pop
    else if key = 's' then s.push Pages.Settings
    else if key = 'q' then { s with quit := true }
    else s
  else s

/-- Stack effect of App::handle_settings_page_event: b pops, q sets the
quit flag, everything else is ignored. -/
def handle_settings_page_event (s : AppNav) (key : Char) : AppNav :=
  if s.page_stack.head? = some Pages.Settings then
    if key = 'b' then s.pop
    else if key = 'q' then { s with quit := true }
    else s
  else s

/-- Stack effect of App::handle_time_entry_create_or_edit_page_event:
e, t, space, a and d mutate the selected entry or delete it and stay on
the page, s loops the timer without touching the stack, b pops, q sets
the quit flag. -/
def handle_time_entry_create_or_edit_page_event (s : AppNav) (key : Char) : AppNav :=
  if s.page_stack.head? = some Pages.TimeEntryCreateOrEdit then
    if key = 'e' then s
    else if key = 't' then s
    else if key = 's' then s
    else if key = ' ' then s
    else if key = 'a' then s
    else if key = 'd' then s
    else if key = 'b' then s.pop
    else if key = 'q' then { s with quit := true }
    else s
  else s

/-- App::handle_page_event: the global quit check comes first (q sets the
quit flag and returns without dispatching), then the event is dispatched to
the handler of the given page; ProjectDetail, ProjectCreateOrEdit and
TaskCreateOrEdit fall to the catch-all arm and do nothing. -/
def handle_page_event (s : AppNav) (page : Pages) (key : Char) : AppNav :=
  if key = 'q' then { s with quit := true }
  else
    match page with
    | Pages.Time => handle_time_page_event s key
    | Pages.Projects => handle_project_page_event s key
    | Pages.Settings => handle_settings_page_event s key
    | Pages.TimeEntryCreateOrEdit => handle_time_entry_create_or_edit_page_event s key
    | _ => s

/-- App::handle_events resolves the top of the stack with
page_stack.last().unwrap() and dispatches; the unwrap panics on an empty
stack, modelled as none. -/
def handle_events (s : AppNav) (key : Char) : Option AppNav :=
  match s.page_stack.head? with
  | some page => some (handle_page_event s page key)
  | none => none

/-- Run a sequence of key events through App::handle_events, propagating
the panic case. -/
def runKeys : AppNav → List Char → Option AppNav
  | s, [] => some s
  | s, k :: ks =>
    match handle_events s k with
    | some s' => runKeys s' ks
    | none => none

/-- The navigation invariant: the page stack is nonempty and its bottom
element is the Time page. -/
def NavInv (s : AppNav) : Prop :=
  s.page_stack ≠ [] ∧ s.page_stack.getLast? = some Pages.Time

/-! ## Selection-index clamping (App::render_time_entries,
App::render_projects, App::render_project_detail) -/

/-- Effective selection computed by App::render_time_entries from the
number of loaded time entries and the stored selection: an empty list
forces selection 0, otherwise a selection at or past the end is clamped
to len - 1.  The source then casts the result to u16 for the cursor
position. -/
def render_time_entries_selection (time_entries_len selection : Nat) : Nat :=
  if time_entries_len = 0 then 0
  else if selection ≥ time_entries_len then time_entries_len - 1
  else selection

/-- Effective selection computed by App::render_projects; the source code
is identical in shape to the time-entries case. -/
def render_projects_selection (projects_len selection : Nat) : Nat :=
  if projects_len = 0 then 0
  else if selection ≥ projects_len then projects_len - 1
  else selection

/-- Effective selection computed by App::render_project_detail.  Unlike
the other two render functions, the source has no empty-list guard: it
runs selection = tasks.len() - 1 whenever selection is at or past the
end, and with an empty task list this usize subtraction underflows
(a panic in debug builds; it wraps to 2 to the 64th minus 1 in release
builds).  The underflowing case is modelled as none. -/
def render_project_detail_selection (tasks_len selection : Nat) : Option Nat :=
  if selection ≥ tasks_len then
    if tasks_len = 0 then none
    else some (tasks_len - 1)
  else some selection

/-! ## TimeEntry and duration formatting -/

/-- The TimeEntry model struct, with i64 fields modelled as Int and the
String fields kept.  The duration field is the persisted cache column;
the derived duration is recomputed by durationFn below. -/
structure TimeEntry where
  id : Int
  project_id : Int
  task_id : Int
  description : String
  start_time : Int
  end_time : Int
  duration : Int
  created_at : Int
deriving DecidableEq, Repr

/-- TimeEntry::duration(), the derived computation end_time - start_time.
Named durationFn here because the struct already has the persisted
duration field, which in Rust lives in a separate namespace from the
method.  Both operands are epoch seconds, so the i64 subtraction does not
overflow for representable entries. -/
def TimeEntry.durationFn (e : TimeEntry) : Int :=
  e.end_time - e.start_time

/-- Rust formatting with format specifier 02: the decimal rendering of
the value, left-padded with a zero to a minimum width of two characters.
For a negative value the sign counts toward the width, which matches
this definition as well since the rendering is then at least two
characters long. -/
def padZero2 (n : Int) : String :=
  let s := toString n
  if s.length < 2 then "0" ++ s else s

/-- TimeEntry::duration_string(): HH:MM:SS built from the derived
duration with truncated i64 division and remainder (Int.tdiv and
Int.tmod are exactly Rust division and remainder on i64). -/
def TimeEntry.duration_string (e : TimeEntry) : String :=
  padZero2 (e.durationFn.tdiv 3600) ++ ":" ++
    padZero2 ((e.durationFn.tmod 3600).tdiv 60) ++ ":" ++
    padZero2 (e.durationFn.tmod 60)

/-- Two-digit zero padding on naturals, the form the specification uses
for the HH:MM:SS components. -/
def padNat2 (n : Nat) : String :=
  let s := toString n
  if s.length < 2 then "0" ++ s else s

/-- A concrete time entry with start 0 and end 3661, the example used by
the specification for duration formatting. -/
def sampleEntry : TimeEntry :=
  { id := 0, project_id := 0, task_id := 0, description := "Time Entry",
    start_time := 0, end_time := 3661, duration := 3661, created_at := 0 }

/-! ## Epoch seconds and calendar timestamps (ToDateTime for i64,
ToI64 for DateTime, lib.rs) -/

/-- Rust as-cast from i64 to u64: two's-complement reinterpretation,
i.e. the value modulo 2 to the 64th. -/
def i64_as_u64 (x : Int) : Nat :=
  (x % (2 ^ 64 : Int)).toNat

/-- Rust as-cast from u64 (or usize, which is 64 bits wide on the target
platform) to i64: two's-complement reinterpretation. -/
def u64_as_i64 (n : Nat) : Int :=
  if n % 2 ^ 64 < 2 ^ 63 then ((n % 2 ^ 64 : Nat) : Int)
  else ((n % 2 ^ 64 : Nat) : Int) - 2 ^ 64

/-- The largest whole-second length a chrono Duration can hold: chrono
caps Duration at i64 milliseconds, so ChronoDuration::from_std fails
(and the unwrap in to_datetime panics) past this many seconds. -/
def CHRONO_MAX_SECS : Nat :=
  (2 ^ 63 - 1) / 1000

/-- The epoch-seconds value of the largest chrono DateTime
(year 262143); adding a longer duration to the epoch panics. -/
def MAX_UTC_TIMESTAMP : Int :=
  8210298412799

/-- ChronoDuration::from_std on a whole-second std Duration: fails past
the chrono cap, modelled as none (the source unwraps the result). -/
def chrono_duration_from_std (secs : Nat) : Option Nat :=
  if secs ≤ CHRONO_MAX_SECS then some secs else none

/-- to_datetime for i64: Duration::from_secs(x as u64), converted with
ChronoDuration::from_std (unwrap), added to Utc.timestamp(0, 0).  A
DateTime in Utc is modelled at second precision as its signed distance
from the epoch; both unwrap panics and the datetime-overflow panic are
modelled as none. -/
def to_datetime (x : Int) : Option Int :=
  match chrono_duration_from_std (i64_as_u64 x) with
  | none => none
  | some d => if (0 + (d : Int)) ≤ MAX_UTC_TIMESTAMP then some (0 + (d : Int)) else none

/-- to_i64 for DateTime in Utc: signed_duration_since the epoch, then
to_std (which fails on a negative duration; the source unwraps it), then
as_secs giving a u64 that is as-cast to i64. -/
def to_i64 (dt : Int) : Option Int :=
  if 0 ≤ dt - 0 then some (u64_as_i64 (dt - 0).toNat) else none

/-! ## The SQLite-backed store (Database, lib.rs)

Each table is a list of rows in insertion order together with the rowid
counter SQLite uses to assign the next INTEGER PRIMARY KEY.  Statement
execution models the rusqlite parameter check: execute and query fail
with InvalidParameterCount when the number of supplied parameters
differs from the number of placeholders in the SQL text. -/

/-- The Project model struct. -/
structure Project where
  id : Int
  name : String
  description : String
deriving DecidableEq, Repr

/-- The Task model struct. -/
structure Task where
  id : Int
  project_id : Int
  name : String
  description : String
deriving DecidableEq, Repr

/-- Errors surfaced by the store: the rusqlite parameter-count failure
and the per-entity not-found errors the source creates from strings. -/
inductive DbError where
  | invalidParameterCount (given expected : Nat)
  | notFound (msg : String)
deriving DecidableEq, Repr

/-- Database state: the three entity tables (the settings table plays no
part in the claims) and the per-table rowid counters. -/
structure Database where
  projects : List Project
  tasks : List Task
  time_entries : List TimeEntry
  next_project_id : Int
  next_task_id : Int
  next_time_entry_id : Int
deriving DecidableEq, Repr

/-- Database::new on a fresh file: empty tables, first rowid 1 in each. -/
def Database.fresh : Database :=
  { projects := [], tasks := [], time_entries := [],
    next_project_id := 1, next_task_id := 1, next_time_entry_id := 1 }

/-- The SQL text of the INSERT used by Database::create_project. -/
def createProjectSQL : String :=
  "INSERT INTO projects (name, description) VALUES (?1, ?2)"

/-- The SQL text of the INSERT used by Database::create_task. -/
def createTaskSQL : String :=
  "INSERT INTO tasks (project_id, name, description) VALUES (?1, ?2, ?3)"

/-- The SQL text of the INSERT used by Database::create_time_entry,
verbatim from the source: seven placeholders. -/
def createTimeEntrySQL : String :=
  "INSERT INTO time_entries (project_id, task_id, description, start_time, end_time, duration, created_at) VALUES (?1, ?2, ?3, ?4, ?5, ?6, ?7)"

/-- The SQL text of the SELECT used by Database::get_project. -/
def getProjectSQL : String :=
  "SELECT * FROM projects WHERE id = ?1"

/-- The SQL text of the SELECT used by Database::get_task. -/
def getTaskSQL : String :=
  "SELECT * FROM tasks WHERE id = ?1"

/-- The SQL text of the DELETE used by Database::delete_project. -/
def deleteProjectSQL : String :=
  "DELETE FROM projects WHERE id = ?1"

/-- The SQL text of the DELETE used by Database::delete_time_entry. -/
def deleteTimeEntrySQL : String :=
  "DELETE FROM time_entries WHERE id = ?1"

/-- The number of parameter placeholders in an SQL text (each written
?1, ?2, ... in the source, so counting question marks is exact). -/
def countPlaceholders (sql : String) : Nat :=
  sql.toList.countP (fun c => c = '?')

/-- The rusqlite bind step run by Connection::execute and query_map:
comparing the supplied parameter count against the placeholder count of
the prepared statement, failing with InvalidParameterCount on mismatch. -/
def bindParameters (sql : String) (given : Nat) : Except DbError Unit :=
  if given = countPlaceholders sql then Except.ok ()
  else Except.error (DbError.invalidParameterCount given (countPlaceholders sql))

/-- Database::create_project: executes the INSERT with two parameters,
reads last_insert_rowid, and returns the Project carrying the assigned
id together with the updated store. -/
def Database.create_project (db : Database) (name description : String) :
    Except DbError (Project × Database) := do
  bindParameters createProjectSQL 2
  let p : Project := { id := db.next_project_id, name := name, description := description }
  return (p, { db with projects := db.projects ++ [p],
                       next_project_id := db.next_project_id + 1 })

/-- Database::get_project: queries by id with one parameter and returns
the first matching row, failing with the string Project not found when
no row matches. -/
def Database.get_project (db : Database) (id : Int) : Except DbError Project := do
  bindParameters getProjectSQL 1
  match db.projects.find? (fun p => p.id == id) with
  | some p => return p
  | none => Except.error (DbError.notFound "Project not found")

/-- Database::delete_project: executes the DELETE with one parameter;
only the projects table is touched, and deleting an absent id is not an
error. -/
def Database.delete_project (db : Database) (id : Int) : Except DbError Database := do
  bindParameters deleteProjectSQL 1
  return { db with projects := db.projects.filter (fun p => p.id != id) }

/-- Database::create_task: executes the INSERT with three parameters and
returns the Task carrying the assigned id. -/
def Database.create_task (db : Database) (project_id : Int) (name description : String) :
    Except DbError (Task × Database) := do
  bindParameters createTaskSQL 3
  let t : Task := { id := db.next_task_id, project_id := project_id,
                    name := name, description := description }
  return (t, { db with tasks := db.tasks ++ [t],
                       next_task_id := db.next_task_id + 1 })

/-- Database::get_task: queries by id with one parameter and returns the
first matching row, failing with the string Task not found when no row
matches. -/
def Database.get_task (db : Database) (id : Int) : Except DbError Task := do
  bindParameters getTaskSQL 1
  match db.tasks.find? (fun t => t.id == id) with
  | some t => return t
  | none => Except.error (DbError.notFound "Task not found")

/-- Database::create_time_entry, verbatim from the source: the SQL text
carries seven placeholders, but the params macro supplies only five
values (project_id, task_id, description, start_time, end_time); the
duration and created_at arguments are never bound.  When the bind step
succeeds the row would be inserted and the entity returned, as for the
other tables. -/
def Database.create_time_entry (db : Database) (project_id task_id : Int)
    (description : String) (start_time end_time duration created_at : Int) :
    Except DbError (TimeEntry × Database) := do
  bindParameters createTimeEntrySQL 5
  let e : TimeEntry := { id := db.next_time_entry_id, project_id := project_id,
                         task_id := task_id, description := description,
                         start_time := start_time, end_time := end_time,
                         duration := duration, created_at := created_at }
  return (e, { db with time_entries := db.time_entries ++ [e],
                       next_time_entry_id := db.next_time_entry_id + 1 })

/-- The scenario composition used by the specification's CRUD round-trip:
delete a project, then fetch the same id. -/
def Database.delete_then_get_project (db : Database) (id : Int) : Except DbError Project :=
  match db.delete_project id with
  | Except.ok db' => db'.get_project id
  | Except.error e => Except.error e

/-- Store well-formedness: the rowid counters are positive and strictly
above every id present in their table.  Database::new establishes this
and every create maintains it. -/
def Database.WF (db : Database) : Prop :=
  0 < db.next_project_id ∧ (∀ p ∈ db.projects, p.id < db.next_project_id) ∧
  0 < db.next_task_id ∧ (∀ t ∈ db.tasks, t.id < db.next_task_id)

/-! ## App delete handlers (App::delete_time_entry,
App::delete_project) -/

/-- App::delete_time_entry: looks the entry up by comparing each loaded
entry id against the stored selection index as-cast to i64, unwraps the
find (none models the panic), then retains every entry with a different
id and issues the database DELETE for the found id (returned here so the
caller can see which row the store was asked to remove). -/
def App.delete_time_entry (time_entries : List TimeEntry) (selection : Nat) :
    Option (List TimeEntry × Int) :=
  match time_entries.find? (fun te => te.id == u64_as_i64 selection) with
  | none => none
  | some te =>
    some (time_entries.filter (fun e => e.id != te.id), te.id)

/-- App::delete_project: same shape as App::delete_time_entry, over the
loaded projects. -/
def App.delete_project (projects : List Project) (selection : Nat) :
    Option (List Project × Int) :=
  match projects.find? (fun p => p.id == u64_as_i64 selection) with
  | none => none
  | some p =>
    some (projects.filter (fun q => q.id != p.id), p.id)

/-! ## Input source throttle (Terminal::new background poller) -/

/-- The forwarding decision of the poller thread spawned by
Terminal::new, over the arrival times (milliseconds since the thread
start, the initial value of last_event) of the captured events: an event
is sent on the channel only when strictly more than 100 ms have elapsed
since the last forwarded event, and only a forwarded event resets
last_event.  Returns the arrival times of the forwarded events. -/
def poll_forwarded (last : Nat) : List Nat → List Nat
  | [] => []
  | t :: ts =>
    if t - last > 100 then t :: poll_forwarded t ts
    else poll_forwarded last ts

/-! ## Command-line options and the store path (Opt, Settings, App::new) -/

/-- The Opt struct declared with structopt: a single required
path-valued flag named database. -/
structure Opt where
  database : String
deriving DecidableEq, Repr

/-- Settings::default(): the hard-coded store path and user. -/
structure AppSettings where
  database_path : String
  user_name : String
  user_email : String
deriving DecidableEq, Repr

/-- The Default impl for Settings in the source. -/
def AppSettings.default : AppSettings :=
  { database_path := "timetracker.sqlite",
    user_name := "John Doe",
    user_email := "johndoe@example.com" }

/-- The database path App::new opens: the source builds it from
Settings::default() and never reads the parsed command-line options (no
call to Opt::from_args exists), so the argument is ignored. -/
def App.new_database_path (_opt : Opt) : String :=
  AppSettings.default.database_path

/-! ## Concrete sample stores for the witnesses -/

/-- The project returned by create_project on a fresh store with name P1
and description D1. -/
def sampleProject : Project :=
  { id := 1, name := "P1", description := "D1" }

/-- The store after that create_project. -/
def sampleDb1 : Database :=
  { projects := [sampleProject], tasks := [], time_entries := [],
    next_project_id := 2, next_task_id := 1, next_time_entry_id := 1 }

/-- The task returned by create_task under sampleProject with name T1
and description TD1. -/
def sampleTask : Task :=
  { id := 1, project_id := 1, name := "T1", description := "TD1" }

/-- The store after that create_task. -/
def sampleDb2 : Database :=
  { projects := [sampleProject], tasks := [sampleTask], time_entries := [],
    next_project_id := 2, next_task_id := 2, next_time_entry_id := 1 }

/-- The store after deleting sampleProject from sampleDb2. -/
def sampleDb3 : Database :=
  { projects := [], tasks := [sampleTask], time_entries := [],
    next_project_id := 2, next_task_id := 2, next_time_entry_id := 1 }

end TimeTracker

namespace TimeTracker

theorem NavInv.initial : NavInv AppNav.initial := by
  constructor <;> simp [AppNav.initial]

theorem NavInv.push {s : AppNav} (h : NavInv s) (p : Pages) : NavInv (s.push p) := by
  obtain ⟨stack, q⟩ := s
  obtain ⟨hne, hlast⟩ := h
  cases stack with
  | nil => exact absurd rfl hne
  | cons a l =>
    exact ⟨by simp [AppNav.push], by
      simpa [AppNav.push, List.getLast?_cons_cons] using hlast⟩

theorem NavInv.quitSet {s : AppNav} (h : NavInv s) : NavInv { s with quit := true } := h

theorem NavInv.popTop {s : AppNav} (h : NavInv s) (p : Pages)
    (htop : s.page_stack.head? = some p) (hp : p ≠ Pages.Time) : NavInv s.pop := by
  obtain ⟨stack, q⟩ := s
  obtain ⟨hne, hlast⟩ := h
  cases stack with
  | nil => exact absurd rfl hne
  | cons a l =>
    have ha : a = p := by simpa using htop
    subst ha
    cases l with
    | nil =>
      exfalso
      apply hp
      simpa using hlast
    | cons b t =>
      refine ⟨by simp [AppNav.pop], ?_⟩
      simpa [AppNav.pop, List.getLast?_cons_cons] using hlast

theorem NavInv.handle_page_event {s : AppNav} (h : NavInv s) (page : Pages) (key : Char)
    (htop : s.page_stack.head? = some page) :
    NavInv (TimeTracker.handle_page_event s page key) := by
  unfold TimeTracker.handle_page_event
  split
  · exact h.quitSet
  · cases page with
    | Time =>
      unfold handle_time_page_event
      split_ifs <;> first
        | exact h
        | exact h.push _
    | Projects =>
      unfold handle_project_page_event
      split_ifs with h1 <;> first
        | exact h
        | exact h.push _
        | exact h.quitSet
        | exact h.popTop Pages.Projects (by assumption) (by simp)
    | Settings =>
      unfold handle_settings_page_event
      split_ifs <;> first
        | exact h
        | exact h.quitSet
        | exact h.popTop Pages.Settings (by assumption) (by simp)
    | TimeEntryCreateOrEdit =>
      unfold handle_time_entry_create_or_edit_page_event
      split_ifs <;> first
        | exact h
        | exact h.quitSet
        | exact h.popTop Pages.TimeEntryCreateOrEdit (by assumption) (by simp)
    | ProjectDetail => exact h
    | ProjectCreateOrEdit => exact h
    | TaskCreateOrEdit => exact h

theorem NavInv.runKeys {s : AppNav} (h : NavInv s) (keys : List Char) :
    ∃ s', runKeys s keys = some s' ∧ NavInv s' := by
  induction keys generalizing s with
  | nil => exact ⟨s, rfl, h⟩
  | cons k ks ih =>
    have hne : s.page_stack ≠ [] := h.1
    obtain ⟨a, l, hs⟩ : ∃ a l, s.page_stack = a :: l :=
      ⟨s.page_stack.head hne, s.page_stack.tail, (List.head_cons_tail _ hne).symm⟩
    have htop : s.page_stack.head? = some a := by rw [hs]; rfl
    have hstep := h.handle_page_event a k htop
    obtain ⟨s', hrun, hinv⟩ := ih hstep
    refine ⟨s', ?_, hinv⟩
    unfold TimeTracker.runKeys
    unfold handle_events
    rw [htop]
    exact hrun

/-- C1.  Page-stack invariant: starting from the initial state (stack =
[Time]) and dispatching any sequence of key events through
App::handle_page_event via App::handle_events, the dispatch never hits the
empty-stack unwrap, the page stack is never empty, and the Time page stays
at the bottom of the stack (so Time is the floor state and is never popped
from itself). -/
theorem pageStack_never_empty (keys : List Char) :
    ∃ s, runKeys AppNav.initial keys = some s ∧
      s.page_stack ≠ [] ∧ s.page_stack.getLast? = some Pages.Time :=
  NavInv.runKeys NavInv.initial keys

/-- C2 counterexample.  The claim extends the clamping policy (selection
0 on an empty list) to the ProjectDetail page, but
App::render_project_detail has no empty-list guard: with an empty task
list and stored selection 0 the usize subtraction tasks.len() - 1
underflows (panic in debug, wrap in release), so the effective selection
is not 0. -/
theorem render_project_detail_empty_not_zero :
    render_project_detail_selection 0 0 ≠ some 0 := by
  decide

/-- C2 amended.  Selection clamping as claimed holds on the Time and
Projects pages: effective selection is 0 on an empty list and
min selection (len - 1) otherwise.  On the ProjectDetail page the
nonempty case agrees, but the empty case underflows instead of
producing 0. -/
theorem selection_clamping_amended (n s : Nat) :
    render_time_entries_selection n s = (if n = 0 then 0 else min s (n - 1)) ∧
    render_projects_selection n s = (if n = 0 then 0 else min s (n - 1)) ∧
    render_project_detail_selection n s =
      (if n = 0 then none else some (min s (n - 1))) := by
  unfold render_time_entries_selection render_projects_selection
    render_project_detail_selection
  refine ⟨?_, ?_, ?_⟩ <;>
    · split_ifs <;> simp_all <;> omega

theorem padZero2_natCast (k : Nat) : padZero2 (k : Int) = padNat2 k := rfl

theorem padZero2_nonneg (k : Int) (hk : 0 ≤ k) : padZero2 k = padNat2 k.toNat := by
  obtain ⟨m, rfl⟩ := Int.eq_ofNat_of_zero_le hk
  rfl

/-- C4.  For a time entry with non-negative duration (0 ≤ start_time ≤
end_time, both representable epoch seconds), duration_string() is
HH:MM:SS with hours = (end - start) / 3600, minutes =
((end - start) % 3600) / 60, seconds = (end - start) % 60, each
zero-padded to two digits. -/
theorem duration_string_spec (e : TimeEntry)
    (_h0 : 0 ≤ e.start_time) (h1 : e.start_time ≤ e.end_time) :
    e.duration_string =
      padNat2 ((e.end_time - e.start_time).toNat / 3600) ++ ":" ++
      padNat2 ((e.end_time - e.start_time).toNat % 3600 / 60) ++ ":" ++
      padNat2 ((e.end_time - e.start_time).toNat % 60) := by
  have hd : (0 : Int) ≤ e.end_time - e.start_time := by omega
  obtain ⟨t, ht⟩ := Int.eq_ofNat_of_zero_le hd
  unfold TimeEntry.duration_string TimeEntry.durationFn
  rw [ht]
  rw [show (3600 : Int) = ((3600 : Nat) : Int) from rfl,
    show (60 : Int) = ((60 : Nat) : Int) from rfl,
    ← Int.ofNat_tdiv, ← Int.ofNat_tmod, ← Int.ofNat_tdiv, ← Int.ofNat_tmod,
    padZero2_natCast, padZero2_natCast, padZero2_natCast]
  simp

/-- Witness for C4 at the example from the specification: start 0,
end 3661 formats as 01:01:01. -/
theorem duration_string_spec_witness :
    (0 : Int) ≤ sampleEntry.start_time ∧
    sampleEntry.start_time ≤ sampleEntry.end_time ∧
    sampleEntry.duration_string = "01:01:01" :=
  ⟨by decide, by decide,
    (duration_string_spec sampleEntry (by decide) (by decide)).trans (by rfl)⟩

/-- C3 (code bug).  Database::create_time_entry can never insert a row:
the INSERT carries seven placeholders but the source binds only five
parameters (duration and created_at are dropped), so the rusqlite bind
step fails with InvalidParameterCount on every input, where the claim
says the row is inserted and the call fails only when the underlying
write fails. -/
theorem create_time_entry_always_fails (db : Database) (project_id task_id : Int)
    (description : String) (start_time end_time duration created_at : Int) :
    db.create_time_entry project_id task_id description
        start_time end_time duration created_at
      = Except.error (DbError.invalidParameterCount 5 7) := rfl

/-- Executing a query on the projects table reduces to the lookup once
the one-parameter bind succeeds. -/
theorem get_project_eq (db : Database) (id : Int) :
    db.get_project id =
      match db.projects.find? (fun p => p.id == id) with
      | some p => Except.ok p
      | none => Except.error (DbError.notFound "Project not found") := rfl

theorem get_task_eq (db : Database) (id : Int) :
    db.get_task id =
      match db.tasks.find? (fun t => t.id == id) with
      | some t => Except.ok t
      | none => Except.error (DbError.notFound "Task not found") := rfl

theorem create_project_eq (db : Database) (name description : String) :
    db.create_project name description =
      Except.ok ({ id := db.next_project_id, name := name, description := description },
        { db with
            projects := db.projects ++
              [{ id := db.next_project_id, name := name, description := description }],
            next_project_id := db.next_project_id + 1 }) := rfl

theorem create_task_eq (db : Database) (project_id : Int) (name description : String) :
    db.create_task project_id name description =
      Except.ok ({ id := db.next_task_id, project_id := project_id,
                   name := name, description := description },
        { db with
            tasks := db.tasks ++
              [{ id := db.next_task_id, project_id := project_id,
                 name := name, description := description }],
            next_task_id := db.next_task_id + 1 }) := rfl

theorem delete_project_eq (db : Database) (id : Int) :
    db.delete_project id =
      Except.ok { db with projects := db.projects.filter (fun p => p.id != id) } := rfl

theorem delete_then_get_project_eq (db : Database) (id : Int) :
    db.delete_then_get_project id =
      Database.get_project
        { db with projects := db.projects.filter (fun p => p.id != id) } id := rfl

theorem find?_append_of_none {α : Type} (l₁ l₂ : List α) (p : α → Bool)
    (h : l₁.find? p = none) : (l₁ ++ l₂).find? p = l₂.find? p := by
  induction l₁ with
  | nil => simp
  | cons a l ih =>
    cases hpa : p a with
    | true =>
      rw [List.find?_cons_of_pos _ hpa] at h
      exact absurd h (by simp)
    | false =>
      have hneg : ¬ p a = true := by simp [hpa]
      rw [List.find?_cons_of_neg _ hneg] at h
      rw [List.cons_append, List.find?_cons_of_neg _ hneg]
      exact ih h

theorem fresh_WF : Database.fresh.WF := by
  refine ⟨by decide, ?_, by decide, ?_⟩ <;> simp [Database.fresh]

/-- C6.  Project CRUD round-trip on a well-formed store: create_project
returns the fields handed to it under a freshly assigned positive id,
get_project on that id returns exactly that entity, and after
delete_project the same get_project fails with the not-found error (and
no other outcome). -/
theorem project_crud_roundtrip (db : Database) (name description : String)
    (p : Project) (db' : Database)
    (hwf : db.WF)
    (hc : db.create_project name description = Except.ok (p, db')) :
    0 < p.id ∧ p.name = name ∧ p.description = description ∧
    db'.get_project p.id = Except.ok p ∧
    db'.delete_then_get_project p.id =
      Except.error (DbError.notFound "Project not found") := by
  rw [create_project_eq] at hc
  injection hc with hc
  rw [Prod.mk.injEq] at hc
  obtain ⟨hp, hdb⟩ := hc
  subst hp
  subst hdb
  obtain ⟨hpos, hbound, -, -⟩ := hwf
  have hnone : db.projects.find? (fun q => q.id == db.next_project_id) = none := by
    rw [List.find?_eq_none]
    intro q hq
    have := hbound q hq
    simp only [beq_iff_eq]
    omega
  refine ⟨hpos, rfl, rfl, ?_, ?_⟩
  · rw [get_project_eq]
    dsimp only
    rw [find?_append_of_none _ _ _ hnone]
    rw [List.find?_cons_of_pos _ (by simp)]
  · rw [delete_then_get_project_eq, get_project_eq]
    dsimp only
    split
    · rename_i q heq
      exfalso
      have hq := List.mem_of_find?_eq_some heq
      have hqq := List.find?_some heq
      have hqf := (List.mem_filter.mp hq).2
      simp only [beq_iff_eq] at hqq
      simp only [bne_iff_ne, ne_eq] at hqf
      exact hqf hqq
    · rfl

/-- Witness for C6: the concrete round-trip on a fresh store. -/
theorem project_crud_roundtrip_witness :
    Database.fresh.WF ∧
    Database.fresh.create_project "P1" "D1" = Except.ok (sampleProject, sampleDb1) ∧
    (0 < sampleProject.id ∧ sampleProject.name = "P1" ∧
      sampleProject.description = "D1" ∧
      sampleDb1.get_project sampleProject.id = Except.ok sampleProject ∧
      sampleDb1.delete_then_get_project sampleProject.id =
        Except.error (DbError.notFound "Project not found")) :=
  ⟨fresh_WF, rfl,
    project_crud_roundtrip Database.fresh "P1" "D1" sampleProject sampleDb1 fresh_WF rfl⟩

/-- C7.  Delete does not cascade: on a well-formed store, after creating
a project and a task under it and then deleting the project, the tasks
and time-entries tables are untouched and the task is still retrievable
by its id through get_task. -/
theorem delete_project_no_cascade (db : Database) (pname pdesc tname tdesc : String)
    (p : Project) (db1 : Database) (t : Task) (db2 db3 : Database)
    (hwf : db.WF)
    (h1 : db.create_project pname pdesc = Except.ok (p, db1))
    (h2 : db1.create_task p.id tname tdesc = Except.ok (t, db2))
    (h3 : db2.delete_project p.id = Except.ok db3) :
    db3.tasks = db2.tasks ∧ db3.time_entries = db2.time_entries ∧
    db3.get_task t.id = Except.ok t := by
  rw [create_project_eq] at h1
  injection h1 with h1
  rw [Prod.mk.injEq] at h1
  obtain ⟨hp1, hdb1⟩ := h1
  subst hp1
  subst hdb1
  rw [create_task_eq] at h2
  injection h2 with h2
  rw [Prod.mk.injEq] at h2
  obtain ⟨ht2, hdb2⟩ := h2
  subst ht2
  subst hdb2
  rw [delete_project_eq] at h3
  injection h3 with h3
  subst h3
  obtain ⟨-, -, -, hbound⟩ := hwf
  refine ⟨rfl, rfl, ?_⟩
  rw [get_task_eq]
  dsimp only
  have hnone : db.tasks.find? (fun q => q.id == db.next_task_id) = none := by
    rw [List.find?_eq_none]
    intro q hq
    have := hbound q hq
    simp only [beq_iff_eq]
    omega
  rw [find?_append_of_none _ _ _ hnone]
  rw [List.find?_cons_of_pos _ (by simp)]

/-- Witness for C7: the concrete no-cascade scenario on a fresh store. -/
theorem delete_project_no_cascade_witness :
    Database.fresh.WF ∧
    Database.fresh.create_project "P1" "D1" = Except.ok (sampleProject, sampleDb1) ∧
    sampleDb1.create_task sampleProject.id "T1" "TD1" = Except.ok (sampleTask, sampleDb2) ∧
    sampleDb2.delete_project sampleProject.id = Except.ok sampleDb3 ∧
    (sampleDb3.tasks = sampleDb2.tasks ∧
      sampleDb3.time_entries = sampleDb2.time_entries ∧
      sampleDb3.get_task sampleTask.id = Except.ok sampleTask) :=
  ⟨fresh_WF, rfl, rfl, rfl,
    delete_project_no_cascade Database.fresh "P1" "D1" "T1" "TD1"
      sampleProject sampleDb1 sampleTask sampleDb2 sampleDb3 fresh_WF rfl rfl rfl⟩

/-- C5.  On the representable non-negative range, converting epoch
seconds to a calendar timestamp and back is the identity: to_datetime
succeeds and to_i64 recovers the input exactly (second precision). -/
theorem to_datetime_to_i64_roundtrip (x : Int)
    (h0 : 0 ≤ x) (h1 : x ≤ MAX_UTC_TIMESTAMP) :
    (to_datetime x).bind to_i64 = some x := by
  have hmax : MAX_UTC_TIMESTAMP = 8210298412799 := rfl
  unfold to_datetime chrono_duration_from_std i64_as_u64
  have hmod : x % (2 ^ 64 : Int) = x := Int.emod_eq_of_lt h0 (by omega)
  rw [hmod]
  have hle : x.toNat ≤ CHRONO_MAX_SECS := by
    have : CHRONO_MAX_SECS = (2 ^ 63 - 1) / 1000 := rfl
    omega
  rw [if_pos hle]
  have hcast : (0 : Int) + (x.toNat : Int) = x := by omega
  dsimp only
  rw [hcast, if_pos h1]
  show to_i64 x = some x
  unfold to_i64 u64_as_i64
  rw [if_pos (by omega : (0 : Int) ≤ x - 0)]
  rw [if_pos (by omega : (x - 0).toNat % 2 ^ 64 < 2 ^ 63)]
  congr 1
  omega

/-- Witness for C5 at a concrete epoch value. -/
theorem to_datetime_to_i64_roundtrip_witness :
    (0 : Int) ≤ 1700000000 ∧ (1700000000 : Int) ≤ MAX_UTC_TIMESTAMP ∧
    (to_datetime 1700000000).bind to_i64 = some 1700000000 :=
  ⟨by decide, by decide,
    to_datetime_to_i64_roundtrip 1700000000 (by decide) (by decide)⟩

/-- C9.  The poller never forwards two events less than 100 ms apart:
along any arrival sequence, consecutive forwarded events are strictly
more than 100 ms apart, and every forwarded event is strictly more than
100 ms after the previously forwarded event (the time the spacing clock
last reset); arrivals inside that window are dropped by construction of
poll_forwarded. -/
theorem poll_forwarded_spacing (last : Nat) (ts : List Nat) :
    (poll_forwarded last ts).Chain' (fun a b => a + 100 < b) ∧
    ∀ x ∈ poll_forwarded last ts, last + 100 < x := by
  induction ts generalizing last with
  | nil => exact ⟨List.chain'_nil, by simp [poll_forwarded]⟩
  | cons t ts ih =>
    have hstep : poll_forwarded last (t :: ts) =
        if t - last > 100 then t :: poll_forwarded t ts
        else poll_forwarded last ts := rfl
    rw [hstep]
    by_cases h : t - last > 100
    · rw [if_pos h]
      obtain ⟨hchain, hmem⟩ := ih t
      constructor
      · rw [List.chain'_cons']
        exact ⟨fun b hb => hmem b (List.mem_of_mem_head? hb), hchain⟩
      · intro x hx
        rcases List.mem_cons.mp hx with rfl | hx'
        · omega
        · have := hmem x hx'
          omega
    · rw [if_neg h]
      exact ih last

/-- C10.  The delete handlers resolve the entity by comparing entity ids
against the selection index as-cast to i64: the unwrap panics (none)
exactly when no loaded entity has that id, and on an empty list the
handlers always panic rather than doing nothing or returning an error
value. -/
theorem delete_handlers_match_selection_as_id (time_entries : List TimeEntry)
    (projects : List Project) (selection : Nat) :
    (App.delete_time_entry time_entries selection = none ↔
      ∀ e ∈ time_entries, e.id ≠ u64_as_i64 selection) ∧
    (App.delete_project projects selection = none ↔
      ∀ p ∈ projects, p.id ≠ u64_as_i64 selection) ∧
    App.delete_time_entry [] selection = none ∧
    App.delete_project [] selection = none := by
  refine ⟨?_, ?_, rfl, rfl⟩
  · unfold App.delete_time_entry
    cases hfind : time_entries.find? (fun te => te.id == u64_as_i64 selection) with
    | none =>
      constructor
      · intro _ e he
        have := List.find?_eq_none.mp hfind e he
        simpa using this
      · intro _
        rfl
    | some te =>
      constructor
      · intro h
        exact Option.noConfusion h
      · intro hall
        have hmem := List.mem_of_find?_eq_some hfind
        have heq := List.find?_some hfind
        exact absurd (by simpa using heq) (hall te hmem)
  · unfold App.delete_project
    cases hfind : projects.find? (fun p => p.id == u64_as_i64 selection) with
    | none =>
      constructor
      · intro _ p hp
        have := List.find?_eq_none.mp hfind p hp
        simpa using this
      · intro _
        rfl
    | some p =>
      constructor
      · intro h
        exact Option.noConfusion h
      · intro hall
        have hmem := List.mem_of_find?_eq_some hfind
        have heq := List.find?_some hfind
        exact absurd (by simpa using heq) (hall p hmem)

/-- C8 counterexample.  The claim says the Store is backed by exactly
the file named by the database flag; but App::new never consults the
parsed options, so with a flag value of mydb.sqlite the opened path is
not mydb.sqlite. -/
theorem app_ignores_database_flag :
    App.new_database_path { database := "mydb.sqlite" } ≠ "mydb.sqlite" := by
  decide

/-- C8 amended.  The source declares a structopt Opt with a required
path-valued database flag, but the binary never parses it and App::new
never reads it: the Store the application constructs is always backed
by the hard-coded Settings::default() path timetracker.sqlite,
whatever the command line says. -/
theorem app_database_path_amended (opt : Opt) :
    App.new_database_path opt = "timetracker.sqlite" := rfl

end TimeTracker
